import Mathlib

/-!
Verification of the OpenScan3 hardware orchestration core.

This file is a shallow embedding, in Lean 4, of the parts of the repository
that the checked properties speak about:

* `openscan_firmware/config/sensors.py` - the static sensor table and the
  resolution-based sensor estimation;
* `openscan_firmware/utils/photos/exif.py` - the pure intrinsics derivations
  (rational focal length, 35 mm equivalent, EXIF metadata builder);
* `openscan_firmware/controllers/device.py` - the device orchestrator:
  `initialize`, `cleanup_and_exit`, `get_device_info`, `_unique_camera_name`.

Python floats are embedded as exact rationals; Python `round` (round half to
even) is `pyRound`; a Python function that can raise is embedded as an
`Except` value; the imperative registry loops are embedded as functions from
an explicit hardware state to a new state and a trace of attempted
controller actions.
-/

/-- Association-list lookup by key, first match wins: the embedding of a
Python `dict` read (`d.get(k)` / `d[k]`), with the list keeping the
insertion order of the dict. -/
def lookupName {α : Type} (l : List (String × α)) (name : String) : Option α :=
  match l with
  | [] => none
  | p :: rest => if p.1 = name then some p.2 else lookupName rest name

/-- Python `str.lower()` on one character, for the basic latin range that the
camera and sensor names use. -/
def lowerChar (c : Char) : Char :=
  if 65 ≤ c.toNat ∧ c.toNat ≤ 90 then Char.ofNat (c.toNat + 32) else c

/-- Python `str.lower()`: the embedding of `camera_name.lower()`. -/
def lowerString (s : String) : String :=
  String.mk (s.data.map lowerChar)

/-- Python `round()` on an exact rational: round half to even.
`int(round(x))` in the source is exactly this function. -/
def pyRound (q : ℚ) : ℤ :=
  let f : ℤ := ⌊q⌋
  if 2 * (q - f) < 1 then f
  else if 1 < 2 * (q - f) then f + 1
  else if f % 2 = 0 then f else f + 1

/-- `pyRound` evaluated once the floor of the argument is known. -/
theorem pyRound_eval (q : ℚ) (f : ℤ) (h1 : (f : ℚ) ≤ q) (h2 : q < f + 1) :
    pyRound q = if 2 * (q - f) < 1 then f
      else if 1 < 2 * (q - f) then f + 1
      else if f % 2 = 0 then f else f + 1 := by
  have hf : ⌊q⌋ = f := Int.floor_eq_iff.mpr ⟨h1, by exact_mod_cast h2⟩
  simp only [pyRound, hf]

/-- `pyRound` of an integer is that integer. -/
theorem pyRound_intCast (n : ℤ) : pyRound (n : ℚ) = n := by
  rw [pyRound_eval (n : ℚ) n le_rfl (by exact_mod_cast lt_add_one n)]
  norm_num

/-- `config/sensors.py`: class `CameraSensor` - physical sensor parameters.
Millimetre fields are floats in the source, embedded as exact rationals;
pixel fields are Python ints. -/
structure CameraSensor where
  name : String
  sensor_width_mm : ℚ
  sensor_height_mm : ℚ
  native_width_px : ℤ
  native_height_px : ℤ
  default_focal_length_mm : Option ℚ
deriving DecidableEq

/-- `SENSOR_DATABASE["imx519"]` (Arducam IMX519 16MP). -/
def imx519Sensor : CameraSensor :=
  { name := "imx519", sensor_width_mm := 4.64, sensor_height_mm := 3.48,
    native_width_px := 4656, native_height_px := 3496,
    default_focal_length_mm := some 4.28 }

/-- `SENSOR_DATABASE["hawkeye"]` (Arducam Hawkeye 64MP). -/
def hawkeyeSensor : CameraSensor :=
  { name := "hawkeye", sensor_width_mm := 6.45, sensor_height_mm := 4.84,
    native_width_px := 9152, native_height_px := 6944,
    default_focal_length_mm := some 5.1 }

/-- `SENSOR_DATABASE["imx708"]` (Raspberry Pi Camera Module 3). -/
def imx708Sensor : CameraSensor :=
  { name := "imx708", sensor_width_mm := 6.45, sensor_height_mm := 3.63,
    native_width_px := 4608, native_height_px := 2592,
    default_focal_length_mm := some 4.74 }

/-- `SENSOR_DATABASE["imx477"]` (Raspberry Pi HQ Camera). -/
def imx477Sensor : CameraSensor :=
  { name := "imx477", sensor_width_mm := 6.287, sensor_height_mm := 4.712,
    native_width_px := 4056, native_height_px := 3040,
    default_focal_length_mm := some 6.0 }

/-- `config/sensors.py`: `SENSOR_DATABASE`, in dict insertion order. -/
def SENSOR_DATABASE : List (String × CameraSensor) :=
  [ ("imx519", imx519Sensor), ("hawkeye", hawkeyeSensor),
    ("imx708", imx708Sensor), ("imx477", imx477Sensor) ]

/-- `config/sensors.py`: `CAMERA_SENSOR_ALIASES`. -/
def CAMERA_SENSOR_ALIASES : List (String × String) :=
  [ ("arducam_64mp", "hawkeye"), ("imx519", "imx519"),
    ("imx708", "imx708"), ("imx477", "imx477") ]

/-- `utils/photos/exif.py`: `get_sensor_for_camera`. An empty camera name is
falsy in Python (`if not camera_name`) and yields no sensor; otherwise the
lower-cased name goes through the alias map (identity fallback) and into the
sensor table. -/
def get_sensor_for_camera (camera_name : String) : Option CameraSensor :=
  if camera_name = "" then none
  else
    let sensor_name :=
      (lookupName CAMERA_SENSOR_ALIASES (lowerString camera_name)).getD
        (lowerString camera_name)
    lookupName SENSOR_DATABASE sensor_name

/-- `utils/photos/exif.py`: `focal_to_rational` -
`(int(round(focal_mm * 100)), 100)`. -/
def focal_to_rational (focal_mm : ℚ) : ℤ × ℤ :=
  (pyRound (focal_mm * 100), 100)

/-- `utils/photos/exif.py`: `calculate_35mm_equivalent`. The source computes
`focal_mm * (36.0 / sensor_width_mm)` and falls back to the unscaled focal
length when the sensor width is not positive. -/
def calculate_35mm_equivalent (focal_mm sensor_width_mm : ℚ) : ℤ :=
  if sensor_width_mm ≤ 0 then pyRound focal_mm
  else pyRound (focal_mm * (36 / sensor_width_mm))

/-- The payload of the EXIF dict `build_camera_intrinsics_exif` builds on
success: `{"Exif": {37386: focal rational, 41405: 35mm equivalent,
41486: image width, 41487: image height}}`. `none` stands for the empty
dict `{}`. -/
structure IntrinsicsExif where
  focalLength : ℤ × ℤ
  focalLength35mm : ℤ
  pixelXDimension : ℤ
  pixelYDimension : ℤ
deriving DecidableEq

/-- `utils/photos/exif.py`: `build_camera_intrinsics_exif`. The flag
`piexifAvailable` embeds whether `import piexif` succeeds: when it does not,
the source catches the import error and returns the empty dict even for a
known sensor. -/
def build_camera_intrinsics_exif (piexifAvailable : Bool) (camera_name : String)
    (image_width image_height : ℤ) : Option IntrinsicsExif :=
  match get_sensor_for_camera camera_name with
  | none => none
  | some sensor =>
    match sensor.default_focal_length_mm with
    | none => none
    | some focal =>
      if piexifAvailable then
        some { focalLength := focal_to_rational focal,
               focalLength35mm := calculate_35mm_equivalent focal sensor.sensor_width_mm,
               pixelXDimension := image_width,
               pixelYDimension := image_height }
      else none

/-- `config/sensors.py`: `estimate_sensor_from_resolution`. The first loop
looks for an exact native-resolution match; the second computes
`target = width / height` (a `ZeroDivisionError` in Python when
`height == 0`, embedded as `Except.error ()`) and returns the first sensor
whose native aspect differs from the target by less than `0.01` and whose
native resolution dominates the observed one in both dimensions. -/
def estimate_sensor_from_resolution (width height : ℤ) :
    Except Unit (Option CameraSensor) :=
  match SENSOR_DATABASE.find? (fun p =>
      p.2.native_width_px == width && p.2.native_height_px == height) with
  | some p => Except.ok (some p.2)
  | none =>
    if height = 0 then Except.error ()
    else
      Except.ok ((SENSOR_DATABASE.find? (fun p =>
        decide (|(p.2.native_width_px : ℚ) / (p.2.native_height_px : ℚ)
            - (width : ℚ) / (height : ℚ)| < 1 / 100)
        && width ≤ p.2.native_width_px && height ≤ p.2.native_height_px)).map
        (fun p => p.2))

/-- Modelled from the spec: the sensor-estimation rule as the claim words it
over the table of sensors - an exact native-resolution match first, then the
first sensor in table order within the aspect tolerance whose native
resolution is at least the observed one in both dimensions, else no sensor.
Used as the specification side of the refinement theorem for the code
function above. -/
def spec_estimate_sensor (width height : ℤ) : Option CameraSensor :=
  match (SENSOR_DATABASE.map Prod.snd).find? (fun s =>
      s.native_width_px == width && s.native_height_px == height) with
  | some s => some s
  | none =>
    (SENSOR_DATABASE.map Prod.snd).find? (fun s =>
      decide (|(s.native_width_px : ℚ) / (s.native_height_px : ℚ)
          - (width : ℚ) / (height : ℚ)| < 1 / 100)
      && width ≤ s.native_width_px && height ≤ s.native_height_px)

/-- Little-endian decimal digits of a natural number, driven by explicit
fuel so that the kernel can evaluate it; `toDigitsRev n n` is the full digit
list of `n`. -/
def toDigitsRev : Nat → Nat → List Nat
  | 0, _ => []
  | fuel + 1, n => if n = 0 then [] else n % 10 :: toDigitsRev fuel (n / 10)

/-- Recombining little-endian decimal digits. -/
def ofDigitsRev : List Nat → Nat
  | [] => 0
  | d :: ds => d + 10 * ofDigitsRev ds

theorem ofDigitsRev_toDigitsRev : ∀ fuel n, n ≤ fuel →
    ofDigitsRev (toDigitsRev fuel n) = n := by
  intro fuel
  induction fuel with
  | zero =>
    intro n hn
    have : n = 0 := Nat.le_zero.mp hn
    simp [this, toDigitsRev, ofDigitsRev]
  | succ f ih =>
    intro n hn
    by_cases h0 : n = 0
    · simp [h0, toDigitsRev, ofDigitsRev]
    · have hdiv : n / 10 ≤ f := by
        have hlt : n / 10 < n := Nat.div_lt_self (Nat.pos_of_ne_zero h0) (by norm_num)
        omega
      simp only [toDigitsRev, h0, if_neg, ite_false, ofDigitsRev, ih (n / 10) hdiv]
      exact Nat.mod_add_div n 10

theorem toDigitsRev_lt_ten : ∀ fuel n, ∀ d ∈ toDigitsRev fuel n, d < 10 := by
  intro fuel
  induction fuel with
  | zero => intro n d hd; simp [toDigitsRev] at hd
  | succ f ih =>
    intro n d hd
    by_cases h0 : n = 0
    · simp [h0, toDigitsRev] at hd
    · simp only [toDigitsRev, h0, ite_false, List.mem_cons] at hd
      rcases hd with h | h
      · subst h; exact Nat.mod_lt n (by norm_num)
      · exact ih (n / 10) d h

theorem digitChar_injOn : ∀ d < 10, ∀ e < 10,
    Nat.digitChar d = Nat.digitChar e → d = e := by decide

theorem map_digitChar_inj : ∀ l₁ l₂ : List Nat, (∀ d ∈ l₁, d < 10) →
    (∀ d ∈ l₂, d < 10) → l₁.map Nat.digitChar = l₂.map Nat.digitChar → l₁ = l₂ := by
  intro l₁
  induction l₁ with
  | nil => intro l₂ _ _ h; cases l₂ <;> simp_all
  | cons d ds ih =>
    intro l₂ h₁ h₂ h
    cases l₂ with
    | nil => simp at h
    | cons e es =>
      simp only [List.map_cons, List.cons.injEq] at h
      have hd : d = e :=
        digitChar_injOn d (h₁ d (List.mem_cons_self d ds)) e
          (h₂ e (List.mem_cons_self e es)) h.1
      have hds : ds = es :=
        ih es (fun x hx => h₁ x (List.mem_cons_of_mem d hx))
          (fun x hx => h₂ x (List.mem_cons_of_mem e hx)) h.2
      rw [hd, hds]

/-- The decimal rendering of a natural number: the embedding of the Python
f-string interpolation of the integer `suffix` in `_detect_cameras`. -/
def natRepr (n : Nat) : String :=
  if n = 0 then "0" else String.mk (((toDigitsRev n n).reverse).map Nat.digitChar)

theorem natRepr_injective : Function.Injective natRepr := by
  intro m n h
  by_cases hm : m = 0 <;> by_cases hn : n = 0
  · rw [hm, hn]
  · exfalso
    rw [natRepr, if_pos hm, natRepr, if_neg hn] at h
    have hdata : ("0" : String).data =
        ((toDigitsRev n n).reverse).map Nat.digitChar := congrArg String.data h
    have h0 : ("0" : String).data = ['0'] := rfl
    rw [h0] at hdata
    have : (toDigitsRev n n).reverse = [0] := by
      apply map_digitChar_inj _ [0]
        (fun d hd => toDigitsRev_lt_ten n n d (List.mem_reverse.mp hd))
        (by simp)
      rw [← hdata]; rfl
    have hrev : toDigitsRev n n = [0] := by
      have := congrArg List.reverse this
      simpa using this
    have := ofDigitsRev_toDigitsRev n n le_rfl
    rw [hrev] at this
    simp [ofDigitsRev] at this
    exact hn this.symm
  · exfalso
    rw [natRepr, if_neg hm, natRepr, if_pos hn] at h
    have hdata : ((toDigitsRev m m).reverse).map Nat.digitChar =
        ("0" : String).data := congrArg String.data h
    have h0 : ("0" : String).data = ['0'] := rfl
    rw [h0] at hdata
    have : (toDigitsRev m m).reverse = [0] := by
      apply map_digitChar_inj _ [0]
        (fun d hd => toDigitsRev_lt_ten m m d (List.mem_reverse.mp hd))
        (by simp)
      rw [hdata]; rfl
    have hrev : toDigitsRev m m = [0] := by
      have := congrArg List.reverse this
      simpa using this
    have := ofDigitsRev_toDigitsRev m m le_rfl
    rw [hrev] at this
    simp [ofDigitsRev] at this
    exact hm this.symm
  · rw [natRepr, if_neg hm, natRepr, if_neg hn] at h
    have hdata : ((toDigitsRev m m).reverse).map Nat.digitChar =
        ((toDigitsRev n n).reverse).map Nat.digitChar := by
      have := congrArg String.data h
      simpa using this
    have hrev : (toDigitsRev m m).reverse = (toDigitsRev n n).reverse :=
      map_digitChar_inj _ _
        (fun d hd => toDigitsRev_lt_ten m m d (List.mem_reverse.mp hd))
        (fun d hd => toDigitsRev_lt_ten n n d (List.mem_reverse.mp hd)) hdata
    have hdig : toDigitsRev m m = toDigitsRev n n := by
      have := congrArg List.reverse hrev
      simpa using this
    have h1 := ofDigitsRev_toDigitsRev m m le_rfl
    have h2 := ofDigitsRev_toDigitsRev n n le_rfl
    rw [hdig] at h1
    rw [h2] at h1
    exact h1.symm

/-- The candidate name the disambiguation loop in `_detect_cameras` tries:
the Python f-string `f"{name}-{suffix}"`. -/
def candidateName (name : String) (suffix : Nat) : String :=
  name ++ "-" ++ natRepr suffix

theorem string_append_data (a b : String) : (a ++ b).data = a.data ++ b.data := by
  cases a; cases b; rfl

theorem candidateName_injective (name : String) :
    Function.Injective (candidateName name) := by
  intro m n h
  apply natRepr_injective
  have hdata := congrArg String.data h
  simp only [candidateName, string_append_data, List.append_assoc] at hdata
  exact String.ext (List.append_cancel_left (List.append_cancel_left hdata))

/-- There is always an unused suffix, because the candidate names are
pairwise distinct and `used` is finite: the termination argument for the
`while True` loop of `_unique_camera_name`. -/
theorem exists_unused_candidate (used : List String) (name : String) :
    ∃ k, candidateName name (2 + k) ∉ used := by
  by_contra h
  push_neg at h
  have hinj : Function.Injective fun k => candidateName name (2 + k) := by
    intro a b hab
    have := candidateName_injective name hab
    omega
  have hinf : (Set.range fun k => candidateName name (2 + k)).Infinite :=
    Set.infinite_range_of_injective hinj
  have hsub : (Set.range fun k => candidateName name (2 + k)) ⊆ {s | s ∈ used} :=
    Set.range_subset_iff.mpr h
  exact (List.finite_toSet used).not_infinite (hinf.mono hsub)

/-- `controllers/device.py`: the name-fallback `base_name or "camera"` at the
top of `_unique_camera_name` - `None` and the empty string are both falsy. -/
def fallbackName : Option String → String
  | none => "camera"
  | some s => if s = "" then "camera" else s

/-- `controllers/device.py`: the body of `_unique_camera_name` once the
base name has been resolved by the `or "camera"` fallback. If the resolved
name is free it is returned as is; otherwise suffixes 2, 3, ... are scanned
upward and the first free candidate is returned (`Nat.find` is exactly the
first free suffix the `while` loop reaches). -/
def unique_camera_name_resolved (used : List String) (name : String) : String :=
  if name ∈ used then
    candidateName name (2 + Nat.find (exists_unused_candidate used name))
  else name

/-- `controllers/device.py`: `_unique_camera_name(base_name)` against the
accumulated name-keyed camera map, whose key list is `used`. -/
def unique_camera_name (used : List String) (base_name : Option String) : String :=
  unique_camera_name_resolved used (fallbackName base_name)

theorem unique_camera_name_resolved_of_mem (used : List String) (name : String)
    (hmem : name ∈ used) :
    unique_camera_name_resolved used name =
      candidateName name (2 + Nat.find (exists_unused_candidate used name)) := by
  rw [unique_camera_name_resolved, if_pos hmem]

/-- The accumulation of detected camera names: each detected base name is
passed through `_unique_camera_name` against the names assigned so far, and
the result is added to the map, as the three detection loops of
`_detect_cameras` do. -/
def detectNames (bases : List (Option String)) : List String :=
  bases.foldl (fun acc b => acc ++ [unique_camera_name acc b]) []

theorem unique_camera_name_second :
    unique_camera_name ["camX"] (some "camX") = "camX-2" := by
  have hres : unique_camera_name ["camX"] (some "camX") =
      unique_camera_name_resolved ["camX"] "camX" := rfl
  rw [hres, unique_camera_name_resolved_of_mem ["camX"] "camX" (by decide)]
  have hfind : Nat.find (exists_unused_candidate ["camX"] "camX") = 0 :=
    (Nat.find_eq_zero _).mpr (by decide)
  rw [hfind]
  decide

theorem unique_camera_name_third :
    unique_camera_name ["camX", "camX-2"] (some "camX") = "camX-3" := by
  have hres : unique_camera_name ["camX", "camX-2"] (some "camX") =
      unique_camera_name_resolved ["camX", "camX-2"] "camX" := rfl
  rw [hres, unique_camera_name_resolved_of_mem ["camX", "camX-2"] "camX" (by decide)]
  have hfind : Nat.find (exists_unused_candidate ["camX", "camX-2"] "camX") = 1 := by
    rw [Nat.find_eq_iff]
    constructor
    · decide
    · intro m hm
      have hm0 : m = 0 := by omega
      rw [hm0]
      decide
  rw [hfind]
  decide

/-- A runtime controller held by a registry: the flags embed whether its
`cleanup()` or `get_status()` call would raise. The `try/except` blocks of
`device.py` make the orchestrator's control flow independent of these
flags; `statusVal` is the opaque payload `get_status()` returns when it
succeeds. -/
structure Controller where
  cleanupFails : Bool
  statusFails : Bool
  statusVal : Nat
deriving DecidableEq

/-- A light controller: like `Controller`, with `turn_on` and `turn_off`
failure flags. -/
structure LightController where
  cleanupFails : Bool
  statusFails : Bool
  statusVal : Nat
  turnOnFails : Bool
  turnOffFails : Bool
deriving DecidableEq

/-- `controllers/hardware/endstops.py` is not part of the staged sources;
modelled from the spec: an `EndstopController` wraps the endstop descriptor
and a non-owning reference (by name) to the motor controller it homes, and
its `cleanup()` stops the listener. -/
structure EndstopController where
  motorName : String
  cleanupFails : Bool
deriving DecidableEq

/-- The device aggregate `ScannerDevice` (`models/scanner.py`, used as the
module global `_scanner_device`). The four maps hold descriptor objects
keyed by name; only their key sets matter to the proved properties, so the
maps are embedded as key lists in dict insertion order. -/
structure ScannerDevice where
  name : String
  model : Option String
  shield : Option String
  cameras : List String
  motors : List String
  lights : List String
  endstops : List String
  initialized : Bool
deriving DecidableEq

/-- The module-level mutable state `device.py` works on: the three
controller registries (`get_all_*_controllers` return them), the module
global `_endstop_controllers`, and the module global `_scanner_device`.
Association lists keep dict insertion order. -/
structure HardwareState where
  cameraControllers : List (String × Controller)
  motorControllers : List (String × Controller)
  lightControllers : List (String × LightController)
  endstopControllers : List (String × EndstopController)
  scannerDevice : ScannerDevice
deriving DecidableEq

/-- One attempted controller action of the orchestrator, in program order.
An action is recorded when the source reaches the call, whether or not the
call raises (every such call stands in a `try/except` that logs and
continues). -/
inductive DevAction where
  | cleanupCamera (name : String)
  | cleanupMotor (name : String)
  | cleanupLight (name : String)
  | cleanupEndstop (name : String)
  | turnOffLight (name : String)
  | turnOnLight (name : String)
  | createCamera (name : String)
  | createMotor (name : String)
  | createLight (name : String)
  | createEndstop (name : String)
  | startListener (name : String)
  | cleanupAllPins
deriving DecidableEq

/-- `controllers/device.py` lines 567-595: `cleanup_and_exit()`. In source
order: every camera controller's `cleanup()` is attempted; then every
endstop controller's `cleanup()` is attempted and the entry is popped from
`_endstop_controllers` (the pop stands after the `except`, so it happens
even when `cleanup()` raises); then every light controller's `turn_off()`
is attempted; then `cleanup_all_pins()`. Camera and light controllers stay
registered: the function never calls `remove_*_controller`. -/
def cleanup_and_exit (s : HardwareState) : HardwareState × List DevAction :=
  ({ s with endstopControllers := [] },
    s.cameraControllers.map (fun p => DevAction.cleanupCamera p.1)
    ++ s.endstopControllers.map (fun p => DevAction.cleanupEndstop p.1)
    ++ s.lightControllers.map (fun p => DevAction.turnOffLight p.1)
    ++ [DevAction.cleanupAllPins])

/-- `get_status()` on a plain controller: `Except.error` embeds a raised
exception. -/
def get_status (c : Controller) : Except Unit Nat :=
  if c.statusFails then Except.error () else Except.ok c.statusVal

/-- `get_status()` on a light controller. -/
def light_get_status (c : LightController) : Except Unit Nat :=
  if c.statusFails then Except.error () else Except.ok c.statusVal

/-- The name-to-status map a `get_device_info` dict comprehension builds:
the statuses are queried in registry order and the first raised exception
propagates. -/
def statusMap {α : Type} (getS : α → Except Unit Nat) :
    List (String × α) → Except Unit (List (String × Nat))
  | [] => Except.ok []
  | (n, c) :: rest =>
    match getS c with
    | Except.error e => Except.error e
    | Except.ok v =>
      match statusMap getS rest with
      | Except.error e => Except.error e
      | Except.ok r => Except.ok ((n, v) :: r)

/-- The snapshot `get_device_info` returns. -/
structure DeviceInfo where
  name : String
  model : Option String
  shield : Option String
  cameras : List (String × Nat)
  motors : List (String × Nat)
  lights : List (String × Nat)
  initialized : Bool
deriving DecidableEq

/-- `controllers/device.py` lines 177-187: `get_device_info()`. The dict
literal queries `get_status()` of every camera, motor and light controller
with no `try/except` around the comprehensions, so a raised status query
propagates to the caller. -/
def get_device_info (s : HardwareState) : Except Unit DeviceInfo :=
  match statusMap get_status s.cameraControllers with
  | Except.error e => Except.error e
  | Except.ok cams =>
    match statusMap get_status s.motorControllers with
    | Except.error e => Except.error e
    | Except.ok mots =>
      match statusMap light_get_status s.lightControllers with
      | Except.error e => Except.error e
      | Except.ok lgts =>
        Except.ok
          { name := s.scannerDevice.name, model := s.scannerDevice.model,
            shield := s.scannerDevice.shield, cameras := cams, motors := mots,
            lights := lgts, initialized := s.scannerDevice.initialized }

/-- A camera descriptor as `initialize` builds it, together with the
environment facts that decide its controller's fate: `entryValid` embeds
"the config entry is a dict and its `type` tag parses as a `CameraType`"
(invalid entries are skipped with a warning, lines 368-375);
`typeAvailable` embeds `get_available_camera_types()[type]` (unavailable
backends are skipped, lines 435-441); `createFails` embeds whether
`create_camera_controller` raises (caught and logged, lines 442-444);
`controller` is the controller a successful creation registers. -/
structure CameraDesc where
  entryValid : Bool
  typeAvailable : Bool
  createFails : Bool
  controller : Controller
deriving DecidableEq

/-- A motor config entry: `create_motor_controller` is attempted for every
entry; a raise is caught and logged (lines 446-450). -/
structure MotorDesc where
  createFails : Bool
  controller : Controller
deriving DecidableEq

/-- A light config entry: `create_light_controller` is attempted for every
entry; a raise is caught and logged (lines 470-474). -/
structure LightDesc where
  createFails : Bool
  controller : LightController
deriving DecidableEq

/-- An endstop config entry's settings: the configured `motor_name` the
binding resolves, and whether a cleanup of the bound controller would later
raise. -/
structure EndstopSettings where
  motorName : String
  cleanupFails : Bool
deriving DecidableEq

/-- The parsed configuration `initialize(config)` works from, after the
section-shape checks of lines 327-342 (a missing or malformed section is
already the empty list) and after the model/shield enum validation of lines
490-503 (an invalid enum string is already `none`). -/
structure DeviceConfig where
  name : Option String
  model : Option String
  shield : Option String
  cameras : List (String × CameraDesc)
  motors : List (String × MotorDesc)
  lights : List (String × LightDesc)
  endstops : List (String × EndstopSettings)
deriving DecidableEq

/-- `controllers/device.py` lines 344-360: the pre-reinitialization teardown
that runs when `_scanner_device.initialized` is true, in source order:
`remove_motor_controller` for every motor, `remove_light_controller` for
every light, `remove_camera_controller` for every camera, then
`endstop_controller.cleanup()` with a pop for every endstop, then
`cleanup_all_pins()`. The registry internals are not part of the staged
sources; modelled from the spec: `remove(name)` invokes the controller's
cleanup exactly once and discards the entry, and a raised cleanup is caught
and logged. -/
def teardownActions (s : HardwareState) : List DevAction :=
  s.motorControllers.map (fun p => DevAction.cleanupMotor p.1)
  ++ s.lightControllers.map (fun p => DevAction.cleanupLight p.1)
  ++ s.cameraControllers.map (fun p => DevAction.cleanupCamera p.1)
  ++ s.endstopControllers.map (fun p => DevAction.cleanupEndstop p.1)
  ++ [DevAction.cleanupAllPins]

/-- The registries after the pre-reinitialization teardown: every entry of
every registry has been removed. -/
def clearControllers (s : HardwareState) : HardwareState :=
  { s with
    cameraControllers := [], motorControllers := [],
    lightControllers := [], endstopControllers := [] }

/-- The motor controllers the creation loop of lines 446-450 registers:
one per config entry whose creation does not raise, in config order.
`create_motor_controller` itself is not in the staged sources; modelled
from the spec: `create(descriptor)` constructs and registers under the
descriptor's name. -/
def createdMotors (cfg : DeviceConfig) : List (String × Controller) :=
  (cfg.motors.filter (fun p => !p.2.createFails)).map (fun p => (p.1, p.2.controller))

/-- The light controllers the creation loop of lines 470-474 registers. -/
def createdLights (cfg : DeviceConfig) : List (String × LightController) :=
  (cfg.lights.filter (fun p => !p.2.createFails)).map (fun p => (p.1, p.2.controller))

/-- `controllers/device.py` lines 362-517: the body of `initialize` after
the optional teardown, acting on the state `s1` the teardown left. In
source order: build the camera objects (physical detection when
`detect_cameras` is set or no camera config is present - detection first
removes every registered camera controller, `_detect_cameras` lines
246-247 - otherwise the config entries with valid type tags); attempt a
camera controller per object whose backend is available; attempt a motor
controller per motor entry; bind every endstop whose configured motor name
resolves in the motor registry (an unresolved name raises `ValueError`
inside the per-endstop `try`, so that endstop is skipped whole) and start
its listener; attempt a light controller per light entry; turn on every
registered light; finally replace `_scanner_device` with the rebuilt
aggregate, `initialized := true`. The cloud-settings block (lines 404-429)
and the project-manager call (lines 477-480) touch no controller and are
omitted. -/
def buildPhase (s1 : HardwareState) (cfg : DeviceConfig) (detectFlag : Bool)
    (detected : List (String × CameraDesc)) : HardwareState × List DevAction :=
  let detection := detectFlag || cfg.cameras.isEmpty
  let detectRemovals :=
    if detection then s1.cameraControllers.map (fun p => DevAction.cleanupCamera p.1)
    else []
  let camRegBase := if detection then [] else s1.cameraControllers
  let cameraObjects :=
    if detection then detected else cfg.cameras.filter (fun p => p.2.entryValid)
  let camAttempts := cameraObjects.filter (fun p => p.2.typeAvailable)
  let camActions := camAttempts.map (fun p => DevAction.createCamera p.1)
  let cameraReg := camRegBase ++
    (camAttempts.filter (fun p => !p.2.createFails)).map (fun p => (p.1, p.2.controller))
  let motorActions := cfg.motors.map (fun p => DevAction.createMotor p.1)
  let motorReg := s1.motorControllers ++ createdMotors cfg
  let bound := cfg.endstops.filter (fun p => (lookupName motorReg p.2.motorName).isSome)
  let endActions := bound.flatMap
    (fun p => [DevAction.createEndstop p.1, DevAction.startListener p.1])
  let endstopReg := s1.endstopControllers ++ bound.map
    (fun p => (p.1, { motorName := p.2.motorName,
                      cleanupFails := p.2.cleanupFails : EndstopController }))
  let lightActions := cfg.lights.map (fun p => DevAction.createLight p.1)
  let lightReg := s1.lightControllers ++ createdLights cfg
  let turnOnActions := lightReg.map (fun p => DevAction.turnOnLight p.1)
  let dev : ScannerDevice :=
    { name := cfg.name.getD s1.scannerDevice.name,
      model := cfg.model, shield := cfg.shield,
      cameras := cameraObjects.map Prod.fst,
      motors := cfg.motors.map Prod.fst,
      lights := cfg.lights.map Prod.fst,
      endstops := bound.map Prod.fst,
      initialized := true }
  ({ cameraControllers := cameraReg, motorControllers := motorReg,
     lightControllers := lightReg, endstopControllers := endstopReg,
     scannerDevice := dev },
   detectRemovals ++ camActions ++ motorActions ++ endActions ++ lightActions
     ++ turnOnActions)

/-- `controllers/device.py` lines 319-517: `initialize(config,
detect_cameras)`. When the device is already initialized the full teardown
of lines 344-360 runs first; then the build phase follows on the emptied
(or untouched) registries. `detected` is the name-keyed map physical
probing would return - a parameter of the embedding, since probing reads
hardware. -/
def initializeHardware (s : HardwareState) (cfg : DeviceConfig) (detectFlag : Bool)
    (detected : List (String × CameraDesc)) : HardwareState × List DevAction :=
  if s.scannerDevice.initialized then
    let r := buildPhase (clearControllers s) cfg detectFlag detected
    (r.1, teardownActions s ++ r.2)
  else
    buildPhase s cfg detectFlag detected

/-- The actions that destroy or stop a controller: a cleanup or a light
turn-off. -/
def DevAction.isDestroy : DevAction → Bool
  | .cleanupCamera _ => true
  | .cleanupMotor _ => true
  | .cleanupLight _ => true
  | .cleanupEndstop _ => true
  | .turnOffLight _ => true
  | _ => false

/-- The actions that bring a new controller into being or start its
background activity. -/
def DevAction.isCreate : DevAction → Bool
  | .createCamera _ => true
  | .createMotor _ => true
  | .createLight _ => true
  | .createEndstop _ => true
  | .startListener _ => true
  | _ => false

theorem focal_to_rational_imx519 : focal_to_rational 4.28 = (428, 100) := by
  rw [focal_to_rational, show (4.28 : ℚ) * 100 = ((428 : ℤ) : ℚ) by norm_num,
    pyRound_intCast]

theorem calculate_35mm_imx519 : calculate_35mm_equivalent 4.28 4.64 = 33 := by
  rw [calculate_35mm_equivalent, if_neg (by norm_num),
    show (4.28 : ℚ) * (36 / 4.64) = 963 / 29 by norm_num,
    pyRound_eval (963 / 29) 33 (by norm_num) (by norm_num)]
  norm_num

/-- C9: for every `focal_mm` and `sensor_width_mm`,
`calculate_35mm_equivalent` equals `round(focal_mm * 36.0 / sensor_width_mm)`
when the sensor width is positive and `round(focal_mm)` unscaled otherwise,
and `calculate_35mm_equivalent(50.0, 36.0) == 50`. `pyRound` is Python
`round` (round half to even) on the exact rational value. -/
theorem equiv35mm_spec :
    (∀ focal_mm sensor_width_mm : ℚ, 0 < sensor_width_mm →
      calculate_35mm_equivalent focal_mm sensor_width_mm =
        pyRound (focal_mm * 36 / sensor_width_mm))
    ∧ (∀ focal_mm sensor_width_mm : ℚ, sensor_width_mm ≤ 0 →
      calculate_35mm_equivalent focal_mm sensor_width_mm = pyRound focal_mm)
    ∧ calculate_35mm_equivalent 50 36 = 50 := by
  refine ⟨?_, ?_, ?_⟩
  · intro f sw hsw
    rw [calculate_35mm_equivalent, if_neg (not_le.mpr hsw), mul_div_assoc]
  · intro f sw hsw
    rw [calculate_35mm_equivalent, if_pos hsw]
  · rw [calculate_35mm_equivalent, if_neg (by norm_num),
      show (50 : ℚ) * (36 / 36) = ((50 : ℤ) : ℚ) by norm_num, pyRound_intCast]

/-- C6: `build_camera_intrinsics_exif` (with the EXIF library importable) is
empty exactly when the alias-resolved sensor is missing or has no default
focal length, and otherwise carries the rational focal length, the 35 mm
equivalent, and the two output pixel dimensions as passed in; on
`("imx519", 4656, 3496)` it yields `(428, 100)`, `33` and `(4656, 3496)`,
and on `("unknown_camera", 4656, 3496)` it is empty. -/
theorem build_intrinsics_spec :
    (∀ (camera_name : String) (image_width image_height : ℤ),
      get_sensor_for_camera camera_name = none →
        build_camera_intrinsics_exif true camera_name image_width image_height = none)
    ∧ (∀ (camera_name : String) (image_width image_height : ℤ) (sensor : CameraSensor),
      get_sensor_for_camera camera_name = some sensor →
      sensor.default_focal_length_mm = none →
        build_camera_intrinsics_exif true camera_name image_width image_height = none)
    ∧ (∀ (camera_name : String) (image_width image_height : ℤ)
        (sensor : CameraSensor) (focal : ℚ),
      get_sensor_for_camera camera_name = some sensor →
      sensor.default_focal_length_mm = some focal →
        build_camera_intrinsics_exif true camera_name image_width image_height =
          some { focalLength := focal_to_rational focal,
                 focalLength35mm :=
                   calculate_35mm_equivalent focal sensor.sensor_width_mm,
                 pixelXDimension := image_width,
                 pixelYDimension := image_height })
    ∧ build_camera_intrinsics_exif true "imx519" 4656 3496 =
        some { focalLength := (428, 100), focalLength35mm := 33,
               pixelXDimension := 4656, pixelYDimension := 3496 }
    ∧ build_camera_intrinsics_exif true "unknown_camera" 4656 3496 = none := by
  refine ⟨?_, ?_, ?_, ?_, rfl⟩
  · intro n w h hn
    simp only [build_camera_intrinsics_exif, hn]
  · intro n w h sensor hs hf
    simp only [build_camera_intrinsics_exif, hs, hf]
  · intro n w h sensor focal hs hf
    simp only [build_camera_intrinsics_exif, hs, hf, if_pos]
  · have h1 : build_camera_intrinsics_exif true "imx519" 4656 3496 =
        some { focalLength := focal_to_rational 4.28,
               focalLength35mm := calculate_35mm_equivalent 4.28 4.64,
               pixelXDimension := 4656, pixelYDimension := 3496 } := rfl
    rw [h1, focal_to_rational_imx519, calculate_35mm_imx519]

/-- C10: with the `piexif` import failing, `build_camera_intrinsics_exif`
is empty for every camera name - also for `"imx519"`, whose sensor is known
and has a default focal length - so the return value alone cannot separate
"sensor unknown" from "EXIF library unavailable". -/
theorem build_intrinsics_piexif_missing :
    (∀ (camera_name : String) (image_width image_height : ℤ),
      build_camera_intrinsics_exif false camera_name image_width image_height = none)
    ∧ (∀ image_width image_height : ℤ,
      build_camera_intrinsics_exif false "imx519" image_width image_height =
        build_camera_intrinsics_exif true "unknown_camera" image_width image_height) := by
  have key : ∀ (camera_name : String) (image_width image_height : ℤ),
      build_camera_intrinsics_exif false camera_name image_width image_height = none := by
    intro n w h
    rw [build_camera_intrinsics_exif]
    cases hs : get_sensor_for_camera n with
    | none => rfl
    | some sensor =>
      cases hf : sensor.default_focal_length_mm with
      | none => simp [hf]
      | some focal => simp [hf]
  refine ⟨key, fun w h => ?_⟩
  rw [key "imx519" w h]
  rfl

/-- C8 counterexample input: at `(width, height) = (100, 0)` no sensor
matches the exact test, and the fallback divides by `height`, so the Python
function raises `ZeroDivisionError` where the claim promises "no sensor". -/
theorem estimate_sensor_zero_height :
    estimate_sensor_from_resolution 100 0 = Except.error ()
    ∧ ∀ r : Option CameraSensor,
        estimate_sensor_from_resolution 100 0 ≠ Except.ok r := by
  refine ⟨rfl, fun r h => ?_⟩
  rw [show estimate_sensor_from_resolution 100 0 = Except.error () from rfl] at h
  exact Except.noConfusion h

/-- C8 (amended): away from the `height = 0` division error,
`estimate_sensor_from_resolution` returns exactly what the spec wording
prescribes - the first exact native-resolution match in table order, else
the first sensor within the aspect tolerance that dominates the observed
resolution, else no sensor. -/
theorem estimate_sensor_refines_spec (width height : ℤ) (hh : height ≠ 0) :
    estimate_sensor_from_resolution width height =
      Except.ok (spec_estimate_sensor width height) := by
  have hmap : ∀ q : CameraSensor → Bool,
      (SENSOR_DATABASE.map Prod.snd).find? q =
        (SENSOR_DATABASE.find? fun p => q p.2).map Prod.snd := by
    intro q
    rw [List.find?_map]
    rfl
  rw [estimate_sensor_from_resolution, spec_estimate_sensor, hmap, hmap]
  cases hexact : SENSOR_DATABASE.find? (fun p =>
      p.2.native_width_px == width && p.2.native_height_px == height) with
  | some p => rfl
  | none =>
    rw [if_neg hh]
    rfl

/-- C8 witness: the exact-match input `(4656, 3496)`. -/
theorem estimate_sensor_refines_spec_inst :
    estimate_sensor_from_resolution 4656 3496 =
      Except.ok (spec_estimate_sensor 4656 3496) :=
  estimate_sensor_refines_spec 4656 3496 (by decide)

theorem initializeHardware_of_initialized (s : HardwareState) (cfg : DeviceConfig)
    (detectFlag : Bool) (detected : List (String × CameraDesc))
    (hinit : s.scannerDevice.initialized = true) :
    initializeHardware s cfg detectFlag detected =
      ((buildPhase (clearControllers s) cfg detectFlag detected).1,
        teardownActions s ++
          (buildPhase (clearControllers s) cfg detectFlag detected).2) := by
  rw [initializeHardware, hinit]
  rfl

/-- C1 (amended): the actual fixed orders. `cleanup_and_exit()` attempts
every camera cleanup first, then every endstop cleanup, then every light
turn-off, then the global pin release - motor controllers receive no action
and lights are turned off but not cleaned up; the pre-reinitialization
teardown inside `initialize` instead removes motors, then lights, then
cameras, then cleans up endstops, then releases the pins. Both orders hold
for every state, in particular whatever the per-controller failure flags
are: each step's failures are caught, so the action sequence never
changes. -/
theorem cleanup_order_actual :
    (∀ s : HardwareState,
      (cleanup_and_exit s).2 =
        s.cameraControllers.map (fun p => DevAction.cleanupCamera p.1)
        ++ s.endstopControllers.map (fun p => DevAction.cleanupEndstop p.1)
        ++ s.lightControllers.map (fun p => DevAction.turnOffLight p.1)
        ++ [DevAction.cleanupAllPins])
    ∧ (∀ (s : HardwareState) (cfg : DeviceConfig) (detectFlag : Bool)
        (detected : List (String × CameraDesc)),
      s.scannerDevice.initialized = true →
      (initializeHardware s cfg detectFlag detected).2 =
        (s.motorControllers.map (fun p => DevAction.cleanupMotor p.1)
         ++ s.lightControllers.map (fun p => DevAction.cleanupLight p.1)
         ++ s.cameraControllers.map (fun p => DevAction.cleanupCamera p.1)
         ++ s.endstopControllers.map (fun p => DevAction.cleanupEndstop p.1)
         ++ [DevAction.cleanupAllPins])
        ++ (buildPhase (clearControllers s) cfg detectFlag detected).2) := by
  constructor
  · intro s
    rfl
  · intro s cfg detectFlag detected hinit
    rw [initializeHardware_of_initialized s cfg detectFlag detected hinit]
    rfl

/-- A concrete state with one controller of each kind, on which the claimed
teardown order is refuted. -/
def c1State : HardwareState :=
  { cameraControllers := [("cam", ⟨false, false, 0⟩)],
    motorControllers := [("m", ⟨false, false, 0⟩)],
    lightControllers := [("l", ⟨false, false, 0, false, false⟩)],
    endstopControllers := [("es", ⟨"m", false⟩)],
    scannerDevice :=
      ⟨"dev", none, none, ["cam"], ["m"], ["l"], ["es"], true⟩ }

/-- Is this action the cleanup of an endstop controller? -/
def DevAction.isEndstopCleanup : DevAction → Bool
  | .cleanupEndstop _ => true
  | _ => false

/-- Is this action the cleanup of a camera controller? -/
def DevAction.isCameraCleanup : DevAction → Bool
  | .cleanupCamera _ => true
  | _ => false

/-- What claim C1 asserts of the `cleanup_and_exit` action sequence at a
state `s`, in the parts the code refutes: every endstop cleanup strictly
precedes every camera cleanup (the claimed order is endstops, lights,
motors, cameras, pins), every motor controller is cleaned up, and every
light controller is both turned off and cleaned up. -/
def claimedCleanupOrder (s : HardwareState) : Prop :=
  (∀ i j : Fin (cleanup_and_exit s).2.length,
    ((cleanup_and_exit s).2.get i).isEndstopCleanup = true →
    ((cleanup_and_exit s).2.get j).isCameraCleanup = true → (i : Nat) < (j : Nat))
  ∧ (∀ p ∈ s.motorControllers, DevAction.cleanupMotor p.1 ∈ (cleanup_and_exit s).2)
  ∧ (∀ p ∈ s.lightControllers,
      DevAction.turnOffLight p.1 ∈ (cleanup_and_exit s).2
      ∧ DevAction.cleanupLight p.1 ∈ (cleanup_and_exit s).2)

/-- C1 counterexample: at `c1State` the camera cleanup comes first, no
motor is cleaned up and no light is cleaned up, so the claimed order is
false. -/
theorem cleanup_order_claim_refuted : ¬ claimedCleanupOrder c1State := by
  unfold claimedCleanupOrder
  decide

/-- C2 (amended): a second `cleanup_and_exit()` performs no endstop action
(the first call emptied `_endstop_controllers`), but it repeats every
camera controller cleanup and every light turn-off, because
`cleanup_and_exit` leaves the camera and light registries populated. -/
theorem cleanup_second_call_actions (s : HardwareState) :
    (cleanup_and_exit (cleanup_and_exit s).1).2 =
      s.cameraControllers.map (fun p => DevAction.cleanupCamera p.1)
      ++ s.lightControllers.map (fun p => DevAction.turnOffLight p.1)
      ++ [DevAction.cleanupAllPins]
    ∧ ∀ n : String,
        DevAction.cleanupEndstop n ∉ (cleanup_and_exit (cleanup_and_exit s).1).2 := by
  have htr : (cleanup_and_exit (cleanup_and_exit s).1).2 =
      s.cameraControllers.map (fun p => DevAction.cleanupCamera p.1)
      ++ s.lightControllers.map (fun p => DevAction.turnOffLight p.1)
      ++ [DevAction.cleanupAllPins] := by
    simp [cleanup_and_exit]
  refine ⟨htr, fun n hmem => ?_⟩
  rw [htr] at hmem
  simp [List.mem_append, List.mem_map] at hmem

/-- A concrete state on which the second `cleanup_and_exit` call repeats
controller actions. -/
def c2State : HardwareState :=
  { cameraControllers := [("cam", ⟨false, false, 0⟩)],
    motorControllers := [],
    lightControllers := [("l", ⟨false, false, 0, false, false⟩)],
    endstopControllers := [("es", ⟨"m", false⟩)],
    scannerDevice := ⟨"dev", none, none, ["cam"], [], ["l"], ["es"], true⟩ }

/-- C2 counterexample: at `c2State` the second call again cleans up camera
`"cam"` and again turns off light `"l"` - each of those controller actions
runs twice across the two calls, not at most once. -/
theorem cleanup_second_call_repeats :
    DevAction.cleanupCamera "cam" ∈ (cleanup_and_exit (cleanup_and_exit c2State).1).2
    ∧ ((cleanup_and_exit c2State).2
        ++ (cleanup_and_exit (cleanup_and_exit c2State).1).2).count
          (DevAction.cleanupCamera "cam") = 2
    ∧ ((cleanup_and_exit c2State).2
        ++ (cleanup_and_exit (cleanup_and_exit c2State).1).2).count
          (DevAction.turnOffLight "l") = 2 := by
  decide

theorem statusMap_get_status_ok (l : List (String × Controller))
    (h : ∀ p ∈ l, p.2.statusFails = false) :
    statusMap get_status l =
      Except.ok (l.map (fun p => (p.1, p.2.statusVal))) := by
  induction l with
  | nil => rfl
  | cons p rest ih =>
    obtain ⟨n, c⟩ := p
    have hc : c.statusFails = false := h (n, c) (List.mem_cons_self _ _)
    have hrest := ih (fun q hq => h q (List.mem_cons_of_mem _ hq))
    simp [statusMap, get_status, hc, hrest]

theorem statusMap_light_ok (l : List (String × LightController))
    (h : ∀ p ∈ l, p.2.statusFails = false) :
    statusMap light_get_status l =
      Except.ok (l.map (fun p => (p.1, p.2.statusVal))) := by
  induction l with
  | nil => rfl
  | cons p rest ih =>
    obtain ⟨n, c⟩ := p
    have hc : c.statusFails = false := h (n, c) (List.mem_cons_self _ _)
    have hrest := ih (fun q hq => h q (List.mem_cons_of_mem _ hq))
    simp [statusMap, light_get_status, hc, hrest]

/-- C4 (amended): `get_device_info` returns the merged snapshot - static
name, model, shield and `initialized` flag beside every live controller's
runtime status - whenever every controller's status query succeeds; but the
comprehensions stand in no `try/except`, so one failing `get_status()`
propagates out of `get_device_info` instead of degrading to best-effort
data. -/
theorem device_info_ok_of_status_ok (s : HardwareState)
    (hc : ∀ p ∈ s.cameraControllers, p.2.statusFails = false)
    (hm : ∀ p ∈ s.motorControllers, p.2.statusFails = false)
    (hl : ∀ p ∈ s.lightControllers, p.2.statusFails = false) :
    get_device_info s = Except.ok
      { name := s.scannerDevice.name, model := s.scannerDevice.model,
        shield := s.scannerDevice.shield,
        cameras := s.cameraControllers.map (fun p => (p.1, p.2.statusVal)),
        motors := s.motorControllers.map (fun p => (p.1, p.2.statusVal)),
        lights := s.lightControllers.map (fun p => (p.1, p.2.statusVal)),
        initialized := s.scannerDevice.initialized } := by
  rw [get_device_info, statusMap_get_status_ok s.cameraControllers hc,
    statusMap_get_status_ok s.motorControllers hm,
    statusMap_light_ok s.lightControllers hl]

/-- A state in which one camera controller's `get_status()` raises. -/
def c4FailState : HardwareState :=
  { cameraControllers := [("cam0", ⟨false, true, 0⟩)],
    motorControllers := [], lightControllers := [], endstopControllers := [],
    scannerDevice := ⟨"dev", none, none, ["cam0"], [], [], [], true⟩ }

/-- C4 counterexample: with one camera whose status query fails,
`get_device_info` raises (returns no snapshot at all), refuting "never
raises". -/
theorem device_info_error_propagates :
    get_device_info c4FailState = Except.error ()
    ∧ ∀ info : DeviceInfo, get_device_info c4FailState ≠ Except.ok info := by
  refine ⟨rfl, fun info h => ?_⟩
  rw [show get_device_info c4FailState = Except.error () from rfl] at h
  exact Except.noConfusion h

/-- A fully healthy concrete state for the C4 witness. -/
def c4OkState : HardwareState :=
  { cameraControllers := [("cam0", ⟨false, false, 7⟩)],
    motorControllers := [("rotor", ⟨false, false, 3⟩)],
    lightControllers := [("ring", ⟨false, false, 1, false, false⟩)],
    endstopControllers := [],
    scannerDevice :=
      ⟨"scanner", none, none, ["cam0"], ["rotor"], ["ring"], [], true⟩ }

/-- C4 witness: the amended theorem applied at `c4OkState`. -/
theorem device_info_ok_inst :
    get_device_info c4OkState = Except.ok
      { name := "scanner", model := none, shield := none,
        cameras := [("cam0", 7)], motors := [("rotor", 3)],
        lights := [("ring", 1)], initialized := true } :=
  device_info_ok_of_status_ok c4OkState (by decide) (by decide) (by decide)

/-- The build phase trace, spelled out: the detection-path camera removals,
then the attempted camera creations, motor creations, endstop bindings with
their listener starts, light creations, and the light turn-ons. -/
theorem buildPhase_trace (s1 : HardwareState) (cfg : DeviceConfig)
    (detectFlag : Bool) (detected : List (String × CameraDesc)) :
    (buildPhase s1 cfg detectFlag detected).2 =
      (if detectFlag || cfg.cameras.isEmpty then
        s1.cameraControllers.map (fun p => DevAction.cleanupCamera p.1) else [])
      ++ ((if detectFlag || cfg.cameras.isEmpty then detected
          else cfg.cameras.filter (fun p => p.2.entryValid)).filter
            (fun p => p.2.typeAvailable)).map (fun p => DevAction.createCamera p.1)
      ++ cfg.motors.map (fun p => DevAction.createMotor p.1)
      ++ (cfg.endstops.filter (fun p =>
            (lookupName (s1.motorControllers ++ createdMotors cfg)
              p.2.motorName).isSome)).flatMap
          (fun p => [DevAction.createEndstop p.1, DevAction.startListener p.1])
      ++ cfg.lights.map (fun p => DevAction.createLight p.1)
      ++ (s1.lightControllers ++ createdLights cfg).map
          (fun p => DevAction.turnOnLight p.1) := rfl

theorem teardownActions_no_create (s : HardwareState) :
    ∀ a ∈ teardownActions s, a.isCreate = false := by
  intro a ha
  rw [teardownActions] at ha
  simp only [List.mem_append, List.mem_map, List.mem_singleton] at ha
  rcases ha with ((((⟨p, _, rfl⟩ | ⟨p, _, rfl⟩) | ⟨p, _, rfl⟩) | ⟨p, _, rfl⟩) | rfl)
    <;> rfl

theorem buildPhase_no_destroy (s1 : HardwareState) (cfg : DeviceConfig)
    (detectFlag : Bool) (detected : List (String × CameraDesc))
    (hcam : s1.cameraControllers = []) :
    ∀ a ∈ (buildPhase s1 cfg detectFlag detected).2, a.isDestroy = false := by
  intro a ha
  rw [buildPhase_trace, hcam] at ha
  simp only [List.map_nil, ite_self, List.nil_append, List.mem_append,
    List.mem_map, List.mem_flatMap, List.mem_cons, List.not_mem_nil,
    or_false] at ha
  rcases ha with ((((⟨p, _, rfl⟩ | ⟨p, _, rfl⟩) | ⟨p, _, h2⟩) | ⟨p, _, rfl⟩) | ⟨p, _, rfl⟩)
  · rfl
  · rfl
  · rcases h2 with rfl | rfl
    · rfl
    · rfl
  · rfl
  · rfl

/-- Every controller-destroying action in the trace stands strictly before
every controller-creating action. -/
def destroysBeforeCreates (tr : List DevAction) : Prop :=
  ∀ (i j : Nat) (hi : i < tr.length) (hj : j < tr.length),
    (tr[i]).isCreate = true → (tr[j]).isDestroy = true → j < i

theorem destroysBeforeCreates_append (A B : List DevAction)
    (hA : ∀ a ∈ A, a.isCreate = false) (hB : ∀ b ∈ B, b.isDestroy = false) :
    destroysBeforeCreates (A ++ B) := by
  intro i j hi hj hci hdj
  have hiA : A.length ≤ i := by
    by_contra hlt
    push_neg at hlt
    rw [List.getElem_append_left hlt] at hci
    have := hA (A[i]) (List.getElem_mem hlt)
    rw [this] at hci
    exact Bool.noConfusion hci
  have hjB : j < A.length := by
    by_contra hge
    push_neg at hge
    rw [List.getElem_append_right hge] at hdj
    have hb : j - A.length < B.length := by
      rw [List.length_append] at hj
      omega
    have := hB (B[j - A.length]) (List.getElem_mem hb)
    rw [this] at hdj
    exact Bool.noConfusion hdj
  omega

/-- The full teardown-then-rebuild property of a reinitialization trace:
every motor, light, camera and endstop controller existing at call time in
the state `s` receives its destroy action in the trace, and every destroy
action in the trace stands strictly before every create action - so each
pre-existing controller is destroyed strictly before any new controller is
created. -/
def fullTeardownBeforeRebuild (s : HardwareState) (tr : List DevAction) : Prop :=
  (∀ p ∈ s.motorControllers, DevAction.cleanupMotor p.1 ∈ tr)
  ∧ (∀ p ∈ s.lightControllers, DevAction.cleanupLight p.1 ∈ tr)
  ∧ (∀ p ∈ s.cameraControllers, DevAction.cleanupCamera p.1 ∈ tr)
  ∧ (∀ p ∈ s.endstopControllers, DevAction.cleanupEndstop p.1 ∈ tr)
  ∧ destroysBeforeCreates tr

/-- C3: when `initialize()` is entered with the device READY
(`initialized = true`), every controller existing at call time - motor,
light, camera and endstop alike - receives its destroy action in the trace,
and every destroy action stands strictly before every action that creates a
new controller, for every configuration, detection flag and probing result:
the pre-existing set is destroyed whole before any new controller is
created. -/
theorem reinit_destroys_before_creates (s : HardwareState) (cfg : DeviceConfig)
    (detectFlag : Bool) (detected : List (String × CameraDesc))
    (hinit : s.scannerDevice.initialized = true) :
    fullTeardownBeforeRebuild s (initializeHardware s cfg detectFlag detected).2 := by
  have heq : (initializeHardware s cfg detectFlag detected).2 =
      teardownActions s ++
        (buildPhase (clearControllers s) cfg detectFlag detected).2 := by
    rw [initializeHardware_of_initialized s cfg detectFlag detected hinit]
  rw [fullTeardownBeforeRebuild, heq]
  refine ⟨?_, ?_, ?_, ?_, ?_⟩
  · intro p hp
    apply List.mem_append_left
    rw [teardownActions]
    simp only [List.mem_append, List.mem_map]
    exact Or.inl (Or.inl (Or.inl (Or.inl ⟨p, hp, rfl⟩)))
  · intro p hp
    apply List.mem_append_left
    rw [teardownActions]
    simp only [List.mem_append, List.mem_map]
    exact Or.inl (Or.inl (Or.inl (Or.inr ⟨p, hp, rfl⟩)))
  · intro p hp
    apply List.mem_append_left
    rw [teardownActions]
    simp only [List.mem_append, List.mem_map]
    exact Or.inl (Or.inl (Or.inr ⟨p, hp, rfl⟩))
  · intro p hp
    apply List.mem_append_left
    rw [teardownActions]
    simp only [List.mem_append, List.mem_map]
    exact Or.inl (Or.inr ⟨p, hp, rfl⟩)
  · exact destroysBeforeCreates_append _ _ (teardownActions_no_create s)
      (buildPhase_no_destroy (clearControllers s) cfg detectFlag detected rfl)

/-- A READY state with one controller of every kind, for the C3 witness. -/
def c3State : HardwareState :=
  { cameraControllers := [("cam", ⟨false, false, 0⟩)],
    motorControllers := [("m", ⟨false, false, 0⟩)],
    lightControllers := [("l", ⟨false, false, 0, false, false⟩)],
    endstopControllers := [("es", ⟨"m", false⟩)],
    scannerDevice := ⟨"dev", none, none, ["cam"], ["m"], ["l"], ["es"], true⟩ }

/-- A configuration that creates a fresh motor and a fresh light, for the
C3 witness. -/
def c3Cfg : DeviceConfig :=
  { name := some "dev", model := none, shield := none, cameras := [],
    motors := [("m2", ⟨false, ⟨false, false, 0⟩⟩)],
    lights := [("l2", ⟨false, ⟨false, false, 0, false, false⟩⟩)],
    endstops := [] }

/-- C3 witness: the reinitialization of `c3State` under `c3Cfg` destroys
all four existing controllers before the new motor and light are
created. -/
theorem reinit_destroys_before_creates_inst :
    fullTeardownBeforeRebuild c3State (initializeHardware c3State c3Cfg false []).2 :=
  reinit_destroys_before_creates c3State c3Cfg false [] rfl

/-- In a list whose keys are without duplicate (a Python dict), two entries
with the same key are the same entry. -/
theorem eq_of_nodup_keys {α : Type} (l : List (String × α))
    (hnodup : (l.map Prod.fst).Nodup) {a b : String × α}
    (ha : a ∈ l) (hb : b ∈ l) (hfst : a.1 = b.1) : a = b := by
  induction l with
  | nil => cases ha
  | cons x rest ih =>
    rw [List.map_cons, List.nodup_cons] at hnodup
    rcases List.mem_cons.mp ha with rfl | ha2
    · rcases List.mem_cons.mp hb with rfl | hb2
      · rfl
      · exfalso
        apply hnodup.1
        rw [hfst]
        exact List.mem_map_of_mem Prod.fst hb2
    · rcases List.mem_cons.mp hb with rfl | hb2
      · exfalso
        apply hnodup.1
        rw [← hfst]
        exact List.mem_map_of_mem Prod.fst ha2
      · exact ih hnodup.2 ha2 hb2

/-- The endstop entries the binding loop accepts: those whose configured
motor name resolves in the motor registry at binding time. -/
def boundEndstops (cfg : DeviceConfig) : List (String × EndstopSettings) :=
  cfg.endstops.filter
    (fun p => (lookupName (createdMotors cfg) p.2.motorName).isSome)

/-- An endstop entry with an unresolvable motor name is not among the
accepted entries (keys unique as in a Python dict). -/
theorem not_mem_boundEndstops (cfg : DeviceConfig) (e : String)
    (es : EndstopSettings) (hmem : (e, es) ∈ cfg.endstops)
    (hnodup : (cfg.endstops.map Prod.fst).Nodup)
    (hlookup : lookupName (createdMotors cfg) es.motorName = none) :
    e ∉ (boundEndstops cfg).map Prod.fst := by
  intro hin
  rcases List.mem_map.mp hin with ⟨p, hpfil, hp1⟩
  rcases List.mem_filter.mp hpfil with ⟨hpmem, hpsome⟩
  have hpe : p = (e, es) := eq_of_nodup_keys cfg.endstops hnodup hpmem hmem hp1
  rw [hpe] at hpsome
  simp only [hlookup, Option.isSome_none] at hpsome
  exact Bool.noConfusion hpsome

/-- An endstop entry whose motor name resolves is among the accepted
entries. -/
theorem mem_boundEndstops (cfg : DeviceConfig) (e2 : String)
    (es2 : EndstopSettings) (hmem : (e2, es2) ∈ cfg.endstops)
    (hsome : (lookupName (createdMotors cfg) es2.motorName).isSome = true) :
    e2 ∈ (boundEndstops cfg).map Prod.fst :=
  List.mem_map.mpr ⟨(e2, es2), List.mem_filter.mpr ⟨hmem, hsome⟩, rfl⟩

/-- What claim C5 promises for an endstop entry `e` whose motor does not
resolve, after `initialize` has run on a READY state: `e` is absent from
the endstop controller registry and from the device aggregate's endstop
map, no listener start is attempted for it, the motor registry holds
exactly the motors created from the configuration, and every endstop entry
whose motor does resolve is bound, registered and started. -/
def endstopSkipped (s : HardwareState) (cfg : DeviceConfig) (detectFlag : Bool)
    (detected : List (String × CameraDesc)) (e : String) : Prop :=
  e ∉ ((initializeHardware s cfg detectFlag detected).1.endstopControllers.map
      Prod.fst)
  ∧ e ∉ (initializeHardware s cfg detectFlag detected).1.scannerDevice.endstops
  ∧ DevAction.startListener e ∉ (initializeHardware s cfg detectFlag detected).2
  ∧ (initializeHardware s cfg detectFlag detected).1.motorControllers =
      createdMotors cfg
  ∧ ∀ (e2 : String) (es2 : EndstopSettings), (e2, es2) ∈ cfg.endstops →
      (lookupName (createdMotors cfg) es2.motorName).isSome = true →
      e2 ∈ ((initializeHardware s cfg detectFlag detected).1.endstopControllers.map
          Prod.fst)
      ∧ e2 ∈ (initializeHardware s cfg detectFlag detected).1.scannerDevice.endstops
      ∧ DevAction.startListener e2 ∈ (initializeHardware s cfg detectFlag detected).2

theorem startListener_not_mem_buildPhase (s1 : HardwareState) (cfg : DeviceConfig)
    (detectFlag : Bool) (detected : List (String × CameraDesc))
    (hmot : s1.motorControllers = []) (n : String)
    (hn : n ∉ (boundEndstops cfg).map Prod.fst) :
    DevAction.startListener n ∉ (buildPhase s1 cfg detectFlag detected).2 := by
  intro hmem
  rw [buildPhase_trace, hmot] at hmem
  simp only [List.nil_append, List.mem_append, List.mem_map, List.mem_flatMap,
    List.mem_cons, List.not_mem_nil, or_false] at hmem
  rcases hmem with ((((hd | ⟨p, _, hp⟩) | ⟨p, _, hp⟩) | ⟨p, hpb, hp⟩) | ⟨p, _, hp⟩) | ⟨p, _, hp⟩
  · cases htest : (detectFlag || cfg.cameras.isEmpty) with
    | false => rw [htest] at hd; simp at hd
    | true => rw [htest] at hd; simp at hd
  · exact DevAction.noConfusion hp
  · exact DevAction.noConfusion hp
  · rcases hp with hp | hp
    · exact DevAction.noConfusion hp
    · have hn2 : p.1 = n := by
        injection hp with h
        exact h.symm
      apply hn
      exact List.mem_map.mpr ⟨p, hpb, hn2⟩
  · exact DevAction.noConfusion hp
  · exact DevAction.noConfusion hp

theorem startListener_mem_buildPhase_of_bound (s1 : HardwareState)
    (cfg : DeviceConfig) (detectFlag : Bool)
    (detected : List (String × CameraDesc))
    (hmot : s1.motorControllers = []) (n : String)
    (hn : n ∈ (boundEndstops cfg).map Prod.fst) :
    DevAction.startListener n ∈ (buildPhase s1 cfg detectFlag detected).2 := by
  rw [buildPhase_trace, hmot]
  rcases List.mem_map.mp hn with ⟨p, hpb, hp1⟩
  have hin : DevAction.startListener n ∈
      (cfg.endstops.filter (fun p =>
        (lookupName (([] : List (String × Controller)) ++ createdMotors cfg)
          p.2.motorName).isSome)).flatMap
        (fun p => [DevAction.createEndstop p.1, DevAction.startListener p.1]) := by
    apply List.mem_flatMap.mpr
    refine ⟨p, hpb, ?_⟩
    rw [← hp1]
    exact List.mem_cons.mpr (Or.inr (List.mem_cons.mpr (Or.inl rfl)))
  exact List.mem_append_left _ (List.mem_append_left _ (List.mem_append_right _ hin))

/-- C5: an endstop config entry whose configured motor name does not
resolve to a live motor controller at binding time is skipped whole - it is
absent from the endstop registry and from the rebuilt device aggregate, no
listener start is attempted for it, the motor registry is untouched by
endstop processing, and every other endstop entry whose motor resolves is
bound and started; the failure is caught inside the per-endstop
`try/except`, so `initialize` runs to completion. -/
theorem endstop_unknown_motor_skipped (s : HardwareState) (cfg : DeviceConfig)
    (detectFlag : Bool) (detected : List (String × CameraDesc))
    (e : String) (es : EndstopSettings)
    (hinit : s.scannerDevice.initialized = true)
    (hmem : (e, es) ∈ cfg.endstops)
    (hnodup : (cfg.endstops.map Prod.fst).Nodup)
    (hlookup : lookupName (createdMotors cfg) es.motorName = none) :
    endstopSkipped s cfg detectFlag detected e := by
  have hnotbound := not_mem_boundEndstops cfg e es hmem hnodup hlookup
  have heq := initializeHardware_of_initialized s cfg detectFlag detected hinit
  have hreg : (initializeHardware s cfg detectFlag detected).1.endstopControllers =
      (boundEndstops cfg).map (fun p => (p.1,
        { motorName := p.2.motorName,
          cleanupFails := p.2.cleanupFails : EndstopController })) := by
    rw [heq]
    rfl
  have hdev : (initializeHardware s cfg
        detectFlag detected).1.scannerDevice.endstops =
      (boundEndstops cfg).map Prod.fst := by
    rw [heq]
    rfl
  have hmotreg : (initializeHardware s cfg detectFlag detected).1.motorControllers =
      createdMotors cfg := by
    rw [heq]
    rfl
  have htrace : (initializeHardware s cfg detectFlag detected).2 =
      teardownActions s ++
        (buildPhase (clearControllers s) cfg detectFlag detected).2 := by
    rw [heq]
  refine ⟨?_, ?_, ?_, hmotreg, ?_⟩
  · rw [hreg, List.map_map]
    intro hin
    apply hnotbound
    rcases List.mem_map.mp hin with ⟨p, hp, hpe⟩
    exact List.mem_map.mpr ⟨p, hp, hpe⟩
  · rw [hdev]
    exact hnotbound
  · rw [htrace]
    intro hin
    rcases List.mem_append.mp hin with h | h
    · have := teardownActions_no_create s _ h
      exact Bool.noConfusion this
    · exact startListener_not_mem_buildPhase (clearControllers s) cfg detectFlag
        detected rfl e hnotbound h
  · intro e2 es2 hmem2 hsome2
    have hb := mem_boundEndstops cfg e2 es2 hmem2 hsome2
    refine ⟨?_, ?_, ?_⟩
    · rw [hreg, List.map_map]
      rcases List.mem_map.mp hb with ⟨p, hp, hpe⟩
      exact List.mem_map.mpr ⟨p, hp, hpe⟩
    · rw [hdev]
      exact hb
    · rw [htrace]
      exact List.mem_append_right _
        (startListener_mem_buildPhase_of_bound (clearControllers s) cfg detectFlag
          detected rfl e2 hb)

/-- A READY state with empty registries, for the C5 witness. -/
def c5State : HardwareState :=
  { cameraControllers := [], motorControllers := [], lightControllers := [],
    endstopControllers := [],
    scannerDevice := ⟨"dev", none, none, [], [], [], [], true⟩ }

/-- A configuration with one motor, one endstop bound to a nonexistent
motor name and one endstop bound to the real motor, for the C5 witness. -/
def c5Cfg : DeviceConfig :=
  { name := some "dev", model := none, shield := none, cameras := [],
    motors := [("rotor", ⟨false, ⟨false, false, 0⟩⟩)], lights := [],
    endstops := [("es_bad", ⟨"ghost", false⟩), ("es_good", ⟨"rotor", false⟩)] }

/-- C5 witness: in `c5Cfg` the endstop `"es_bad"` names the nonexistent
motor `"ghost"` and is skipped, while `"es_good"` is bound and started. -/
theorem endstop_unknown_motor_skipped_inst :
    endstopSkipped c5State c5Cfg false [] "es_bad" :=
  endstop_unknown_motor_skipped c5State c5Cfg false [] "es_bad" ⟨"ghost", false⟩
    rfl (by decide) (by decide) (by decide)

/-- C7: when a detected camera's base name is already taken in the
accumulated camera map, the assigned name is the base name with the first
free suffix among `-2`, `-3`, ... appended, scanning upward; and three
detections of base name `"camX"` against an initially empty map yield
exactly the names `["camX", "camX-2", "camX-3"]`. -/
theorem unique_name_spec :
    (∀ (used : List String) (b : String), b ≠ "" → b ∈ used →
      ∃ j, 2 ≤ j ∧ unique_camera_name used (some b) = candidateName b j ∧
        candidateName b j ∉ used ∧
        ∀ i, 2 ≤ i → i < j → candidateName b i ∈ used)
    ∧ detectNames [some "camX", some "camX", some "camX"] =
        ["camX", "camX-2", "camX-3"] := by
  constructor
  · intro used b hb hmem
    refine ⟨2 + Nat.find (exists_unused_candidate used b), by omega, ?_,
      Nat.find_spec (exists_unused_candidate used b), ?_⟩
    · have hfall : fallbackName (some b) = b := by
        rw [fallbackName, if_neg hb]
      show unique_camera_name_resolved used (fallbackName (some b)) = _
      rw [hfall, unique_camera_name_resolved_of_mem used b hmem]
    · intro i h2 hij
      have hm : i - 2 < Nat.find (exists_unused_candidate used b) := by omega
      have hnot := Nat.find_min (exists_unused_candidate used b) hm
      have heq2 : 2 + (i - 2) = i := by omega
      rw [heq2] at hnot
      exact not_not.mp hnot
  · have h1 : unique_camera_name [] (some "camX") = "camX" := by
      rw [show unique_camera_name [] (some "camX") =
          unique_camera_name_resolved [] "camX" from rfl,
        unique_camera_name_resolved, if_neg (by decide)]
    rw [detectNames]
    simp only [List.foldl_cons, List.foldl_nil, List.nil_append,
      List.singleton_append, List.cons_append, h1,
      unique_camera_name_second, unique_camera_name_third]
